import Mathlib

/-!
Verification of the CAN communication driver and its unit-test harness from
`can_communication.c` and `can_unit_tests.c` (CUBoulder-FSAE Firmware,
"Driverlib Empty CPU1 Example CCS Project").

The C code is shallowly embedded:

* `CAN_Message_t`, `CAN_Stats_t` and the three file-scope globals of
  `can_communication.c` become Lean structures (`DriverState` collects the
  globals `canStats`, `lastRxMessage`, `messageReceived`).
* All statistics counters are C `uint32_t`; increments are therefore taken
  modulo `U32 = 2^32`.
* Caller-supplied byte buffers (`uint8_t *data`) are modelled as functions
  `Nat → Nat` so that "bytes beyond an index are never read" can be stated
  as independence of the result from the function beyond that index.
* Stored 8-byte payloads are `List Nat` values of length 8.
* Functions that write through a pointer parameter return the new value of
  that parameter; the possibly-null pointer of `CAN_getStats` is modelled
  by an explicit `Bool` saying whether the destination is null.
* The hardware configuration written by the vendor `driverlib` calls of
  `CAN_initModule` is modelled as an explicit record `HwState`; the vendor
  library itself is not part of the repository, so those calls are modelled
  from the specification at their interface.
-/

/-- Modulus of C `uint32_t` arithmetic: all statistics counters in the
driver are 32-bit and wrap at this bound. -/
def U32 : Nat := 4294967296

/-- Transmit message ID (`CAN_TX_MSG_ID` in `can_communication.c`). -/
def CAN_TX_MSG_ID : Nat := 0x123

/-- Receive message ID (`CAN_RX_MSG_ID`). -/
def CAN_RX_MSG_ID : Nat := 0x456

/-- Echo/loopback test message ID (`CAN_ECHO_MSG_ID`). -/
def CAN_ECHO_MSG_ID : Nat := 0x789

/-- CAN message structure (`CAN_Message_t`): message ID, data length code,
8 data bytes, timestamp. -/
structure CAN_Message_t where
  id : Nat
  dlc : Nat
  data : List Nat
  timestamp : Nat
deriving DecidableEq

/-- CAN statistics record (`CAN_Stats_t`): TX count, RX count, error count,
last error code. -/
structure CAN_Stats_t where
  messagesTransmitted : Nat
  messagesReceived : Nat
  errorCount : Nat
  lastErrorCode : Nat
deriving DecidableEq

/-- The file-scope mutable globals of `can_communication.c`: `canStats`,
`lastRxMessage` and the reception flag `messageReceived`. -/
structure DriverState where
  canStats : CAN_Stats_t
  lastRxMessage : CAN_Message_t
  messageReceived : Nat
deriving DecidableEq

/-- Static initializer `{0, 0, 0, 0}` of `canStats`. -/
def zeroStats : CAN_Stats_t := ⟨0, 0, 0, 0⟩

/-- Static initializer `{0, 0, {0}, 0}` of `lastRxMessage`. -/
def zeroMsg : CAN_Message_t := ⟨0, 0, List.replicate 8 0, 0⟩

/-- The driver globals at program start: both statistics counters zero,
no latched frame, `messageReceived = 0`. -/
def initDriverState : DriverState := ⟨zeroStats, zeroMsg, 0⟩

/-- The transmit buffer `msgData[8]` built by `CAN_sendMessage`: the two
source loops (copy `data[idx]` for `idx < dlc`, then zero-pad up to 8),
unrolled over the eight slots.  `dlc` is already clamped by the caller. -/
def buildMsgData (data : Nat → Nat) (dlc : Nat) : List Nat :=
  [if 0 < dlc then data 0 else 0,
   if 1 < dlc then data 1 else 0,
   if 2 < dlc then data 2 else 0,
   if 3 < dlc then data 3 else 0,
   if 4 < dlc then data 4 else 0,
   if 5 < dlc then data 5 else 0,
   if 6 < dlc then data 6 else 0,
   if 7 < dlc then data 7 else 0]

/-- `CAN_sendMessage(msgId, data, dlc)` (`can_communication.c`, lines
259-287): clamps `dlc` to 8, builds the zero-padded 8-byte buffer,
hands `(dlc, msgData)` to the bus layer (the vendor `CAN_sendMessage`
driverlib call) and increments `canStats.messagesTransmitted` (a
`uint32_t`, so modulo `U32`).  The result is the updated globals
together with the length and bytes handed to the bus layer.  Note that
the source passes `msgId` but the driverlib call transmits from the TX
message object, which was configured with `CAN_TX_MSG_ID`. -/
def CAN_sendMessage (msgId : Nat) (data : Nat → Nat) (dlc : Nat) (s : DriverState) :
    DriverState × Nat × List Nat :=
  let dlc2 := if dlc > 8 then 8 else dlc
  let msgData := buildMsgData data dlc2
  ({ s with canStats :=
      { s.canStats with
        messagesTransmitted := (s.canStats.messagesTransmitted + 1) % U32 } },
   dlc2, msgData)

/-- `CAN_receiveMessage(msg)` (`can_communication.c`, lines 298-327): if
`messageReceived == 0` it returns 0 leaving everything untouched;
otherwise it copies the latched `lastRxMessage` field by field (the byte
loop unrolled over the eight slots) into the output parameter, clears the
flag, increments `canStats.messagesReceived` (modulo `U32`) and returns 1.
The result is `(return value, new globals, new value of *msg)`. -/
def CAN_receiveMessage (s : DriverState) (msg : CAN_Message_t) :
    Nat × DriverState × CAN_Message_t :=
  if s.messageReceived = 0 then
    (0, s, msg)
  else
    (1,
     { s with
       messageReceived := 0,
       canStats :=
        { s.canStats with
          messagesReceived := (s.canStats.messagesReceived + 1) % U32 } },
     { id := s.lastRxMessage.id,
       dlc := s.lastRxMessage.dlc,
       data :=
        [s.lastRxMessage.data.getD 0 0,
         s.lastRxMessage.data.getD 1 0,
         s.lastRxMessage.data.getD 2 0,
         s.lastRxMessage.data.getD 3 0,
         s.lastRxMessage.data.getD 4 0,
         s.lastRxMessage.data.getD 5 0,
         s.lastRxMessage.data.getD 6 0,
         s.lastRxMessage.data.getD 7 0],
       timestamp := s.lastRxMessage.timestamp })

/-- `CAN_getStats(stats)` (`can_communication.c`, lines 578-591): returns 0
when the destination pointer is null, otherwise copies the four fields of
the global `canStats` into the destination and returns 1.  The null check
`stats == 0` is modelled by the explicit flag `statsIsNull`; the result is
`(return value, globals, new value of *stats)`. -/
def CAN_getStats (statsIsNull : Bool) (s : DriverState) (out : CAN_Stats_t) :
    Nat × DriverState × CAN_Stats_t :=
  if statsIsNull then
    (0, s, out)
  else
    (1, s,
     { messagesTransmitted := s.canStats.messagesTransmitted,
       messagesReceived := s.canStats.messagesReceived,
       errorCount := s.canStats.errorCount,
       lastErrorCode := s.canStats.lastErrorCode })

/-- Rewriting a single slot of the transmit buffer under a pointwise
agreement of the two caller buffers below the copy bound. -/
theorem buildMsgData_entry_congr (data data2 : Nat → Nat) (dlc : Nat)
    (hd : ∀ j, j < dlc → data j = data2 j) (i : Nat) :
    (if i < dlc then data i else 0) = (if i < dlc then data2 i else 0) := by
  by_cases h : i < dlc
  · simp [h, hd i h]
  · simp [h]

/-- The transmit buffer depends only on the caller bytes below the copy
bound `dlc`. -/
theorem buildMsgData_congr (data data2 : Nat → Nat) (dlc : Nat)
    (hd : ∀ j, j < dlc → data j = data2 j) :
    buildMsgData data dlc = buildMsgData data2 dlc := by
  simp only [buildMsgData, buildMsgData_entry_congr data data2 dlc hd]

/-- Claim C1: for `dlc > 8` the length handed to the bus layer is exactly 8
and the frame depends only on caller bytes at indices below 8 (bytes at
index 8 and beyond are never read); for `dlc ≤ 8` the frame handed to the
bus layer has 8 bytes, caller bytes at indices `0..dlc-1`, zero at every
index `≥ dlc`, and does not depend on the caller's buffer beyond `dlc`. -/
theorem C1_send_clamp_and_zero_pad (msgId : Nat) (data data2 : Nat → Nat)
    (dlc : Nat) (s : DriverState) :
    (8 < dlc →
      (CAN_sendMessage msgId data dlc s).2.1 = 8 ∧
      ((∀ i, i < 8 → data i = data2 i) →
        (CAN_sendMessage msgId data2 dlc s).2.2 =
          (CAN_sendMessage msgId data dlc s).2.2)) ∧
    (dlc ≤ 8 →
      (CAN_sendMessage msgId data dlc s).2.1 = dlc ∧
      (CAN_sendMessage msgId data dlc s).2.2.length = 8 ∧
      (∀ i, i < 8 →
        (CAN_sendMessage msgId data dlc s).2.2.getD i 0 =
          if i < dlc then data i else 0) ∧
      ((∀ i, i < dlc → data i = data2 i) →
        (CAN_sendMessage msgId data2 dlc s).2.2 =
          (CAN_sendMessage msgId data dlc s).2.2)) := by
  constructor
  · intro h8
    have hc : (if dlc > 8 then 8 else dlc) = 8 := if_pos h8
    refine ⟨by simp [CAN_sendMessage, hc], ?_⟩
    intro hd
    simp only [CAN_sendMessage, hc]
    exact (buildMsgData_congr data data2 8 hd).symm
  · intro h8
    have hc : (if dlc > 8 then 8 else dlc) = dlc := if_neg (by omega)
    refine ⟨by simp [CAN_sendMessage, hc], by simp [CAN_sendMessage, hc, buildMsgData], ?_, ?_⟩
    · intro i hi
      simp only [CAN_sendMessage, hc, buildMsgData]
      interval_cases i <;> simp [List.getD]
    · intro hd
      simp only [CAN_sendMessage, hc]
      exact (buildMsgData_congr data data2 dlc hd).symm

/-- Caller buffer used by the C1 witness. -/
def c1Data : Nat → Nat := fun i => i + 10

/-- Witness for C1 at concrete inputs: `dlc = 12` is clamped to 8, and with
`dlc = 3` byte 1 is the caller's byte while byte 5 is the zero pad. -/
theorem C1_send_clamp_and_zero_pad_w :
    (CAN_sendMessage 0 c1Data 12 initDriverState).2.1 = 8 ∧
    (CAN_sendMessage 0 c1Data 3 initDriverState).2.2.getD 1 0 = 11 ∧
    (CAN_sendMessage 0 c1Data 3 initDriverState).2.2.getD 5 0 = 0 := by
  refine ⟨((C1_send_clamp_and_zero_pad 0 c1Data c1Data 12 initDriverState).1 (by omega)).1, ?_, ?_⟩
  · have h := ((C1_send_clamp_and_zero_pad 0 c1Data c1Data 3 initDriverState).2
      (by omega)).2.2.1 1 (by omega)
    simpa [c1Data] using h
  · have h := ((C1_send_clamp_and_zero_pad 0 c1Data c1Data 3 initDriverState).2
      (by omega)).2.2.1 5 (by omega)
    simpa using h

/-- Claim C3: when the availability flag `messageReceived` is 0,
`CAN_receiveMessage` returns 0 and leaves both the output parameter and
the driver globals (statistics included) byte-for-byte unmodified. -/
theorem C3_receive_no_message (s : DriverState) (m : CAN_Message_t)
    (h : s.messageReceived = 0) :
    CAN_receiveMessage s m = (0, s, m) := by
  simp [CAN_receiveMessage, h]

/-- Witness for C3: from the boot state (flag 0) a receive call returns 0
and changes nothing. -/
theorem C3_receive_no_message_w :
    CAN_receiveMessage initDriverState zeroMsg = (0, initDriverState, zeroMsg) :=
  C3_receive_no_message initDriverState zeroMsg rfl

/-- Claim C2: with the availability flag set, `CAN_receiveMessage` returns
1, copies the latched frame (id, dlc, all 8 data bytes, timestamp) into
the output parameter, clears the flag and increments the received counter
(a `uint32_t`, hence modulo `U32`); an immediate second call, with no new
frame latched in between, returns 0 — so after any successful receive the
flag is 0. -/
theorem C2_receive_consumes_latch (s : DriverState) (m m2 : CAN_Message_t)
    (h : s.messageReceived ≠ 0) :
    (CAN_receiveMessage s m).1 = 1 ∧
    (CAN_receiveMessage s m).2.2.id = s.lastRxMessage.id ∧
    (CAN_receiveMessage s m).2.2.dlc = s.lastRxMessage.dlc ∧
    (∀ i, i < 8 →
      (CAN_receiveMessage s m).2.2.data.getD i 0 = s.lastRxMessage.data.getD i 0) ∧
    (CAN_receiveMessage s m).2.2.timestamp = s.lastRxMessage.timestamp ∧
    (CAN_receiveMessage s m).2.1.messageReceived = 0 ∧
    (CAN_receiveMessage s m).2.1.canStats.messagesReceived =
      (s.canStats.messagesReceived + 1) % U32 ∧
    (CAN_receiveMessage (CAN_receiveMessage s m).2.1 m2).1 = 0 := by
  refine ⟨?_, ?_, ?_, ?_, ?_, ?_, ?_, ?_⟩ <;>
    simp [CAN_receiveMessage, h]
  intro i hi
  interval_cases i <;> simp [List.getD]

/-- A driver state with a latched frame, used by the C2 witness. -/
def c2State : DriverState :=
  ⟨zeroStats, ⟨CAN_RX_MSG_ID, 4, [1, 2, 3, 4, 0, 0, 0, 0], 7⟩, 1⟩

/-- Witness for C2: from a state holding one latched frame, the first
receive returns 1, copies byte 2, clears the flag and counts the frame;
the immediate second receive returns 0. -/
theorem C2_receive_consumes_latch_w :
    (CAN_receiveMessage c2State zeroMsg).1 = 1 ∧
    (CAN_receiveMessage c2State zeroMsg).2.2.data.getD 2 0 = 3 ∧
    (CAN_receiveMessage c2State zeroMsg).2.1.canStats.messagesReceived = 1 ∧
    (CAN_receiveMessage (CAN_receiveMessage c2State zeroMsg).2.1 zeroMsg).1 = 0 := by
  have h := C2_receive_consumes_latch c2State zeroMsg zeroMsg (by decide)
  refine ⟨h.1, ?_, ?_, h.2.2.2.2.2.2.2⟩
  · have h2 := h.2.2.2.1 2 (by omega)
    simpa [c2State] using h2
  · have h7 := h.2.2.2.2.2.2.1
    simpa [c2State, zeroStats, U32] using h7

/-- Claim C6: `CAN_getStats` with a null destination returns 0 and alters
no global; with a non-null destination it copies the four statistics
fields into the destination, returns 1 and leaves the globals unchanged. -/
theorem C6_getStats_snapshot (s : DriverState) (out : CAN_Stats_t) :
    CAN_getStats true s out = (0, s, out) ∧
    CAN_getStats false s out =
      (1, s,
       ⟨s.canStats.messagesTransmitted, s.canStats.messagesReceived,
        s.canStats.errorCount, s.canStats.lastErrorCode⟩) := by
  constructor <;> simp [CAN_getStats]

/-- Message-object configuration installed by the vendor call
`CAN_setupMessageObject`: ID, frame type, object type, ID mask, flags and
data length. -/
structure CAN_MsgObjConfig where
  msgID : Nat
  frameType : Nat
  objType : Nat
  msgIDMask : Nat
  flags : Nat
  msgLen : Nat
deriving DecidableEq

/-- Modelled from the spec: the bus-module configuration state written by
the vendor `driverlib` calls of `CAN_initModule` (the vendor library is
not part of the repository).  It records the peripheral clock gate, the
two bus pin routings, message RAM initialization, the configured bit
rate, the message-object (slot) table, the module enable and the
interrupt-enable mask. -/
structure HwState where
  canClockEnabled : Bool
  txPinConfigured : Bool
  rxPinConfigured : Bool
  ramInitialized : Bool
  bitRate : Nat
  msgObjs : Nat → Option CAN_MsgObjConfig
  moduleEnabled : Bool
  interruptEnables : Nat

/-- A hardware state with nothing configured, used by witnesses. -/
def hwBoot : HwState := ⟨false, false, false, false, 0, fun _ => none, false, 0⟩

/-- Modelled from the spec: `SysCtl_enablePeripheral(SYSCTL_PERIPH_CLK_CANA)`
opens the CAN peripheral clock gate. -/
def SysCtl_enablePeripheral (h : HwState) : HwState :=
  { h with canClockEnabled := true }

/-- Modelled from the spec: `GPIO_setPinConfig(DEVICE_GPIO_CFG_CANTXA)`
routes the bus TX pin. -/
def GPIO_setPinConfigCANTX (h : HwState) : HwState :=
  { h with txPinConfigured := true }

/-- Modelled from the spec: `GPIO_setPinConfig(DEVICE_GPIO_CFG_CANRXA)`
routes the bus RX pin. -/
def GPIO_setPinConfigCANRX (h : HwState) : HwState :=
  { h with rxPinConfigured := true }

/-- Modelled from the spec: `CAN_initRAM` initializes the message RAM. -/
def CAN_initRAM (h : HwState) : HwState :=
  { h with ramInitialized := true }

/-- Modelled from the spec: `CAN_setBitRate` stores the configured bit
rate. -/
def CAN_setBitRate (h : HwState) (rate : Nat) : HwState :=
  { h with bitRate := rate }

/-- Modelled from the spec: `CAN_setupMessageObject` installs (overwrites)
the configuration of one message object (slot) in the slot table. -/
def CAN_setupMessageObject (h : HwState) (objNum : Nat) (cfg : CAN_MsgObjConfig) : HwState :=
  { h with msgObjs := Function.update h.msgObjs objNum (some cfg) }

/-- Modelled from the spec: `CAN_enableModule` enables the module. -/
def CAN_enableModule (h : HwState) : HwState :=
  { h with moduleEnabled := true }

/-- Modelled from the spec: `CAN_enableInterrupt` ORs the given mask into
the interrupt-enable register. -/
def CAN_enableInterrupt (h : HwState) (mask : Nat) : HwState :=
  { h with interruptEnables := h.interruptEnables ||| mask }

/-- Modelled from the spec: interrupt-enable mask bits
`CAN_INT_IE0 | CAN_INT_ERROR | CAN_INT_STATUS` (vendor header constants;
the exact numeric values are immaterial to the claims). -/
def canIntMask : Nat := 2 ||| 8 ||| 4

/-- Configuration of the TX slot installed by `CAN_initModule`: standard
frame, TX object, ID `CAN_TX_MSG_ID`, no masking, no flags, length 8.
Frame-type/object-type/flag encodings are vendor header constants, kept
abstract as distinct small numbers. -/
def txObjConfig : CAN_MsgObjConfig := ⟨CAN_TX_MSG_ID, 0, 1, 0, 0, 8⟩

/-- Configuration of the RX slot installed by `CAN_initModule`: standard
frame, RX object, ID `CAN_RX_MSG_ID`, no masking, RX interrupt enable,
length 8. -/
def rxObjConfig : CAN_MsgObjConfig := ⟨CAN_RX_MSG_ID, 0, 2, 0, 1, 8⟩

/-- `CAN_initModule()` (`can_communication.c`, lines 205-249): enables the
peripheral clock, routes the two bus pins, initializes message RAM, sets
the bit rate (500 kbit/s as configured), installs the TX slot as message
object 1 and the RX slot as message object 2, enables the module and
enables the interrupt mask.  `CAN_USE_LOOPBACK` is 0 in the source, so no
test-mode call is made. -/
def CAN_initModule (h : HwState) : HwState :=
  CAN_enableInterrupt
    (CAN_enableModule
      (CAN_setupMessageObject
        (CAN_setupMessageObject
          (CAN_setBitRate
            (CAN_initRAM
              (GPIO_setPinConfigCANRX
                (GPIO_setPinConfigCANTX
                  (SysCtl_enablePeripheral h))))
            500000)
          1 txObjConfig)
        2 rxObjConfig))
    canIntMask

/-- Claim C9: `CAN_initModule` is idempotent — a second call yields exactly
the configuration state of a single call (same bit rate, same two slot
configurations, same interrupt enables), and no slot other than message
objects 1 and 2 is ever configured by a call. -/
theorem C9_initModule_idempotent (h : HwState) :
    CAN_initModule (CAN_initModule h) = CAN_initModule h ∧
    ∀ n, n ≠ 1 → n ≠ 2 → (CAN_initModule h).msgObjs n = h.msgObjs n := by
  constructor
  · simp only [CAN_initModule, CAN_enableInterrupt, CAN_enableModule,
      CAN_setupMessageObject, CAN_setBitRate, CAN_initRAM,
      GPIO_setPinConfigCANRX, GPIO_setPinConfigCANTX, SysCtl_enablePeripheral]
    congr 1
    · rw [Function.update_comm (show (2 : Nat) ≠ 1 by omega), Function.update_idem,
        Function.update_idem]
    · rw [Nat.or_assoc, Nat.or_self]
  · intro n h1 h2
    simp only [CAN_initModule, CAN_enableInterrupt, CAN_enableModule,
      CAN_setupMessageObject, CAN_setBitRate, CAN_initRAM,
      GPIO_setPinConfigCANRX, GPIO_setPinConfigCANTX, SysCtl_enablePeripheral]
    rw [Function.update_noteq h2, Function.update_noteq h1]

/-- Witness for C9: from the blank hardware state, re-initializing changes
nothing over a single initialization, and slot 5 is never touched. -/
theorem C9_initModule_idempotent_w :
    CAN_initModule (CAN_initModule hwBoot) = CAN_initModule hwBoot ∧
    (CAN_initModule hwBoot).msgObjs 5 = hwBoot.msgObjs 5 :=
  ⟨(C9_initModule_idempotent hwBoot).1,
   (C9_initModule_idempotent hwBoot).2 5 (by omega) (by omega)⟩

/-- Modelled from the spec: the bus-off bit of the error-status bitmask
(`CAN_ES_BUSOFF`, a vendor header constant not in the repository; bit 7 of
the error/status register).  The code only tests `errorStatus &
CAN_ES_BUSOFF`. -/
def CAN_ES_BUSOFF : Nat := 128

/-- GPIO pin of the status LED (`DEVICE_GPIO_PIN_LED1`, vendor constant;
the value is immaterial to the claims). -/
def DEVICE_GPIO_PIN_LED1 : Nat := 1

/-- GPIO pin of the error LED (`DEVICE_GPIO_PIN_LED2`). -/
def DEVICE_GPIO_PIN_LED2 : Nat := 2

/-- `STATUS_LED_PIN` of `can_communication.c`. -/
def STATUS_LED_PIN : Nat := DEVICE_GPIO_PIN_LED1

/-- `ERROR_LED_PIN` of `can_communication.c`. -/
def ERROR_LED_PIN : Nat := DEVICE_GPIO_PIN_LED2

/-- Observable actions of the driver and harness towards the hardware:
GPIO writes and toggles (`CAN_setLED` / `CAN_toggleLED` /
`GPIO_writePin` / `GPIO_togglePin`), busy-wait delays (`Test_delay`,
with the iteration budget), and calls of the initialization routine. -/
inductive CanEvent where
  | gpioWrite : Nat → Nat → CanEvent
  | gpioToggle : Nat → CanEvent
  | delayLoops : Nat → CanEvent
  | initModuleCall : CanEvent
deriving DecidableEq

/-- `CAN_errorHandler(errorStatus)` (`can_communication.c`, lines 365-395):
increments `canStats.errorCount` (a `uint32_t`, modulo `U32`), records the
bitmask in `lastErrorCode`, turns the error LED on, and — after the four
empty warning/passed classification branches — re-initializes the module
if and only if the bus-off bit is set.  The result is the updated driver
globals, the updated hardware configuration, and the trace of LED and
initialization actions. -/
def CAN_errorHandler (errorStatus : Nat) (s : DriverState) (h : HwState) :
    DriverState × HwState × List CanEvent :=
  ({ s with canStats :=
      { s.canStats with
        errorCount := (s.canStats.errorCount + 1) % U32,
        lastErrorCode := errorStatus } },
   (if errorStatus &&& CAN_ES_BUSOFF ≠ 0 then CAN_initModule h else h),
   [CanEvent.gpioWrite ERROR_LED_PIN 1] ++
     (if errorStatus &&& CAN_ES_BUSOFF ≠ 0 then [CanEvent.initModuleCall] else []))

/-- Claim C5: every fault notification increments the error counter (a
`uint32_t` increment, modulo `U32`), records the bitmask as
`lastErrorCode` and turns the fault indicator on; the initialization
routine is called exactly once if the bus-off bit of the bitmask is set
and not at all otherwise; and neither the sent nor the received counter
changes. -/
theorem C5_errorHandler_busoff (errorStatus : Nat) (s : DriverState) (h : HwState) :
    (CAN_errorHandler errorStatus s h).1.canStats.errorCount =
      (s.canStats.errorCount + 1) % U32 ∧
    (CAN_errorHandler errorStatus s h).1.canStats.lastErrorCode = errorStatus ∧
    CanEvent.gpioWrite ERROR_LED_PIN 1 ∈ (CAN_errorHandler errorStatus s h).2.2 ∧
    ((CAN_errorHandler errorStatus s h).2.2.count CanEvent.initModuleCall =
      if errorStatus &&& CAN_ES_BUSOFF ≠ 0 then 1 else 0) ∧
    (CAN_errorHandler errorStatus s h).2.1 =
      (if errorStatus &&& CAN_ES_BUSOFF ≠ 0 then CAN_initModule h else h) ∧
    (CAN_errorHandler errorStatus s h).1.canStats.messagesTransmitted =
      s.canStats.messagesTransmitted ∧
    (CAN_errorHandler errorStatus s h).1.canStats.messagesReceived =
      s.canStats.messagesReceived := by
  by_cases hb : errorStatus &&& CAN_ES_BUSOFF ≠ 0 <;>
    simp [CAN_errorHandler, hb, List.count_cons]

/-- The four driver-core operations named by the statistics invariant:
`CAN_sendMessage`, `CAN_receiveMessage`, `CAN_getStats` and
`CAN_errorHandler`, each with its caller-supplied arguments. -/
inductive DriverOp where
  | send : Nat → (Nat → Nat) → Nat → DriverOp
  | recv : DriverOp
  | stats : Bool → DriverOp
  | errh : Nat → DriverOp

/-- Effect of one driver operation on the driver globals.  The receive
output parameter and the statistics destination do not influence the
globals, so arbitrary fixed values stand for them; the error handler's
hardware effect acts on `HwState`, not on the globals. -/
def DriverOp.step : DriverOp → DriverState → DriverState
  | DriverOp.send msgId data dlc, s => (CAN_sendMessage msgId data dlc s).1
  | DriverOp.recv, s => (CAN_receiveMessage s zeroMsg).2.1
  | DriverOp.stats isNull, s => (CAN_getStats isNull s zeroStats).2.1
  | DriverOp.errh errorStatus, s => (CAN_errorHandler errorStatus s hwBoot).1

/-- A sequence of driver operations, applied left to right. -/
def runDOps (ops : List DriverOp) (s : DriverState) : DriverState :=
  ops.foldl (fun s op => op.step s) s

/-- Whether a driver operation is a `CAN_sendMessage` call. -/
def DriverOp.isSend : DriverOp → Bool
  | DriverOp.send _ _ _ => true
  | _ => false

/-- Whether a driver operation is a `CAN_receiveMessage` call that
succeeds from the given state (availability flag set). -/
def DriverOp.isRecvSuccess : DriverOp → DriverState → Bool
  | DriverOp.recv, s => s.messageReceived != 0
  | _, _ => false

/-- A fixed send operation used by the C4 witness and counterexample. -/
def sendOp0 : DriverOp := DriverOp.send CAN_TX_MSG_ID (fun _ => 0) 8

/-- Claim C4 as amended: per driver operation, the sent counter changes
exactly by the `uint32_t` increment `(sent + 1) % 2^32` on a send and is
untouched otherwise; the received counter changes exactly by
`(received + 1) % 2^32` on a successful receive and is untouched
otherwise; consequently both counters are non-decreasing at every step at
which they have not yet reached `2^32 - 1` — at `2^32 - 1` the next
increment wraps to 0 (see the counterexample). -/
theorem C4_counters_step_amended (op : DriverOp) (s : DriverState) :
    ((op.step s).canStats.messagesTransmitted =
      if op.isSend then (s.canStats.messagesTransmitted + 1) % U32
      else s.canStats.messagesTransmitted) ∧
    ((op.step s).canStats.messagesReceived =
      if op.isRecvSuccess s then (s.canStats.messagesReceived + 1) % U32
      else s.canStats.messagesReceived) ∧
    (s.canStats.messagesTransmitted + 1 < U32 →
      s.canStats.messagesTransmitted ≤ (op.step s).canStats.messagesTransmitted) ∧
    (s.canStats.messagesReceived + 1 < U32 →
      s.canStats.messagesReceived ≤ (op.step s).canStats.messagesReceived) := by
  cases op with
  | send msgId data dlc =>
    refine ⟨by simp [DriverOp.step, DriverOp.isSend, CAN_sendMessage],
      by simp [DriverOp.step, DriverOp.isRecvSuccess, CAN_sendMessage],
      ?_, by simp [DriverOp.step, CAN_sendMessage]⟩
    intro hlt
    simp only [DriverOp.step, CAN_sendMessage]
    rw [Nat.mod_eq_of_lt hlt]
    omega
  | recv =>
    by_cases hr : s.messageReceived = 0
    · refine ⟨by simp [DriverOp.step, DriverOp.isSend, CAN_receiveMessage, hr],
        by simp [DriverOp.step, DriverOp.isRecvSuccess, CAN_receiveMessage, hr],
        by simp [DriverOp.step, CAN_receiveMessage, hr],
        by simp [DriverOp.step, CAN_receiveMessage, hr]⟩
    · refine ⟨by simp [DriverOp.step, DriverOp.isSend, CAN_receiveMessage, hr],
        by simp [DriverOp.step, DriverOp.isRecvSuccess, CAN_receiveMessage, hr],
        by simp [DriverOp.step, CAN_receiveMessage, hr], ?_⟩
      intro hlt
      have hgoal : (DriverOp.recv.step s).canStats.messagesReceived =
          (s.canStats.messagesReceived + 1) % U32 := by
        simp [DriverOp.step, CAN_receiveMessage, hr]
      rw [hgoal, Nat.mod_eq_of_lt hlt]
      omega
  | stats isNull =>
    refine ⟨?_, ?_, ?_, ?_⟩ <;>
      cases isNull <;>
        simp [DriverOp.step, DriverOp.isSend, DriverOp.isRecvSuccess, CAN_getStats]
  | errh errorStatus =>
    refine ⟨?_, ?_, ?_, ?_⟩ <;>
      simp [DriverOp.step, DriverOp.isSend, DriverOp.isRecvSuccess, CAN_errorHandler]

/-- Witness for C4 (amended): one send from the boot state takes the sent
counter from 0 to 1, a non-decrease. -/
theorem C4_counters_step_amended_w :
    (sendOp0.step initDriverState).canStats.messagesTransmitted = 1 ∧
    initDriverState.canStats.messagesTransmitted ≤
      (sendOp0.step initDriverState).canStats.messagesTransmitted := by
  have h := C4_counters_step_amended sendOp0 initDriverState
  constructor
  · rw [h.1]
    decide
  · exact h.2.2.1 (by decide)

/-- After `n` identical sends from a state whose sent counter is in range,
the sent counter holds `(sent + n) % 2^32`. -/
theorem sent_after_replicate_sends (n : Nat) :
    ∀ s : DriverState, s.canStats.messagesTransmitted < U32 →
      (runDOps (List.replicate n sendOp0) s).canStats.messagesTransmitted =
        (s.canStats.messagesTransmitted + n) % U32 := by
  induction n with
  | zero =>
    intro s hs
    simpa [runDOps] using (Nat.mod_eq_of_lt hs).symm
  | succ n ih =>
    intro s hs
    have hstep : (sendOp0.step s).canStats.messagesTransmitted =
        (s.canStats.messagesTransmitted + 1) % U32 := by
      simp [sendOp0, DriverOp.step, CAN_sendMessage]
    have hlt : (sendOp0.step s).canStats.messagesTransmitted < U32 := by
      rw [hstep]
      exact Nat.mod_lt _ (by decide)
    have hrun : runDOps (List.replicate (n + 1) sendOp0) s =
        runDOps (List.replicate n sendOp0) (sendOp0.step s) := by
      simp [runDOps, List.replicate_succ]
    rw [hrun, ih (sendOp0.step s) hlt, hstep, Nat.mod_add_mod]
    congr 1
    omega

/-- Counterexample refuting C4 as stated: after `2^32 - 1` sends from the
boot state the sent counter holds `2^32 - 1`, and the next
`CAN_sendMessage` call strictly decreases it (the `uint32_t` counter
wraps to 0), so the sent counter is not non-decreasing across every
sequence of driver operations and a send does not always increase it. -/
theorem C4_counters_wraparound_cx :
    (sendOp0.step (runDOps (List.replicate (U32 - 1) sendOp0) initDriverState)).canStats.messagesTransmitted
      < (runDOps (List.replicate (U32 - 1) sendOp0) initDriverState).canStats.messagesTransmitted := by
  have hstep : ∀ s : DriverState, (sendOp0.step s).canStats.messagesTransmitted =
      (s.canStats.messagesTransmitted + 1) % U32 := by
    intro s
    simp [sendOp0, DriverOp.step, CAN_sendMessage]
  have h1 := sent_after_replicate_sends (U32 - 1) initDriverState (by norm_num [initDriverState, zeroStats, U32])
  have h2 : (runDOps (List.replicate (U32 - 1) sendOp0) initDriverState).canStats.messagesTransmitted =
      U32 - 1 := by
    rw [h1]
    norm_num [initDriverState, zeroStats, U32]
  rw [hstep, h2]
  norm_num [U32]

/-- Modelled from the spec: the bus layer's asynchronous notification path
latches an inbound frame into `lastRxMessage` and sets the availability
flag `messageReceived`.  The interrupt service routine that would do this
is absent from the source files (see C7); the behavior follows the
Pending-Receive Slot description of the specification (single-slot
mailbox, last write wins). -/
def latchFrame (f : CAN_Message_t) (s : DriverState) : DriverState :=
  { s with lastRxMessage := f, messageReceived := 1 }

/-- Optional latch action of the environment before one poll. -/
def rxLatch (a : Option CAN_Message_t) (s : DriverState) : DriverState :=
  match a with
  | some f => latchFrame f s
  | none => s

/-- The bounded polling loop `while((timeout > 0U) && (CAN_receiveMessage(&rxMsg) == 0U)) timeout--;`
of `CAN_testReceive`, `Test_CAN_ReceiveMessage` and `Test_CAN_DataIntegrity`.
`env i` is the frame, if any, that the bus layer latches right before the
`i`-th poll; the loop returns the final value of `timeout`, the driver
globals, the final value of `rxMsg`, and whether some poll succeeded. -/
def rxPollLoop : (Nat → Option CAN_Message_t) → Nat → DriverState → CAN_Message_t →
    Nat × DriverState × CAN_Message_t × Bool
  | _, 0, s, m => (0, s, m, false)
  | env, t + 1, s, m =>
    if (CAN_receiveMessage (rxLatch (env 0) s) m).1 = 0 then
      rxPollLoop (fun i => env (i + 1)) t (rxLatch (env 0) s) m
    else
      (t + 1, (CAN_receiveMessage (rxLatch (env 0) s) m).2.1,
       (CAN_receiveMessage (rxLatch (env 0) s) m).2.2, true)

/-- A latch action leaves the statistics record untouched. -/
theorem rxLatch_canStats (a : Option CAN_Message_t) (s : DriverState) :
    (rxLatch a s).canStats = s.canStats := by
  cases a <;> simp [rxLatch, latchFrame]

/-- Dichotomy of the polling loop: either no poll ever succeeded — then the
budget is exhausted (`timeout = 0`), the statistics are untouched and
`rxMsg` still holds its initial value — or some poll succeeded — then
`timeout` is still positive, the received counter was incremented exactly
once (modulo `U32`) and the availability flag is clear. -/
theorem rxPollLoop_spec : ∀ (t : Nat) (env : Nat → Option CAN_Message_t)
    (s : DriverState) (m : CAN_Message_t),
    ((rxPollLoop env t s m).2.2.2 = false ∧
      (rxPollLoop env t s m).1 = 0 ∧
      (rxPollLoop env t s m).2.1.canStats = s.canStats ∧
      (rxPollLoop env t s m).2.2.1 = m) ∨
    ((rxPollLoop env t s m).2.2.2 = true ∧
      0 < (rxPollLoop env t s m).1 ∧
      (rxPollLoop env t s m).2.1.canStats.messagesReceived =
        (s.canStats.messagesReceived + 1) % U32 ∧
      (rxPollLoop env t s m).2.1.messageReceived = 0) := by
  intro t
  induction t with
  | zero =>
    intro env s m
    exact Or.inl ⟨rfl, rfl, rfl, rfl⟩
  | succ t ih =>
    intro env s m
    by_cases hf : (rxLatch (env 0) s).messageReceived = 0
    · have hr : (CAN_receiveMessage (rxLatch (env 0) s) m).1 = 0 := by
        simp [CAN_receiveMessage, hf]
      have hunf : rxPollLoop env (t + 1) s m =
          rxPollLoop (fun i => env (i + 1)) t (rxLatch (env 0) s) m := by
        simp only [rxPollLoop, hr, if_pos]
      rcases ih (fun i => env (i + 1)) (rxLatch (env 0) s) m with hno | hyes
      · exact Or.inl ⟨by rw [hunf]; exact hno.1, by rw [hunf]; exact hno.2.1,
          by rw [hunf, hno.2.2.1, rxLatch_canStats], by rw [hunf]; exact hno.2.2.2⟩
      · refine Or.inr ⟨by rw [hunf]; exact hyes.1, by rw [hunf]; exact hyes.2.1, ?_,
          by rw [hunf]; exact hyes.2.2.2⟩
        rw [hunf, hyes.2.2.1, rxLatch_canStats]
    · have hr : (CAN_receiveMessage (rxLatch (env 0) s) m).1 = 1 := by
        simp [CAN_receiveMessage, hf]
      have hunf : rxPollLoop env (t + 1) s m =
          (t + 1, (CAN_receiveMessage (rxLatch (env 0) s) m).2.1,
           (CAN_receiveMessage (rxLatch (env 0) s) m).2.2, true) := by
        simp only [rxPollLoop, hr]
        simp
      refine Or.inr ⟨by rw [hunf], by rw [hunf]; omega, ?_, ?_⟩
      · rw [hunf]
        simp only [CAN_receiveMessage, if_neg hf]
        rw [← rxLatch_canStats (env 0) s]
      · rw [hunf]
        simp [CAN_receiveMessage, hf]

/-- With no environment action and a clear availability flag, every poll
fails: the loop spins the budget down to 0 and changes nothing. -/
theorem rxPollLoop_none_flag0 : ∀ (t : Nat) (s : DriverState) (m : CAN_Message_t),
    s.messageReceived = 0 →
    rxPollLoop (fun _ => none) t s m = (0, s, m, false) := by
  intro t
  induction t with
  | zero =>
    intro s m _
    rfl
  | succ t ih =>
    intro s m h
    have hr : (CAN_receiveMessage (rxLatch none s) m).1 = 0 := by
      simp [CAN_receiveMessage, rxLatch, h]
    simp only [rxPollLoop, hr, if_pos]
    exact ih s m h

/-- Bump of the error counter `canStats.errorCount++` (a `uint32_t`). -/
def bumpErrorCount (s : DriverState) : DriverState :=
  { s with canStats :=
      { s.canStats with errorCount := (s.canStats.errorCount + 1) % U32 } }

/-- `CAN_processMessage(msgId, data, dlc)` (`can_communication.c`, lines
337-357), in the `RUN_UNIT_TESTS` build: a message carrying the expected
receive ID is echoed back with the echo ID; everything else (including
echo responses) is left without effect. -/
def CAN_processMessage (msgId : Nat) (data : Nat → Nat) (dlc : Nat)
    (s : DriverState) : DriverState :=
  if msgId = CAN_RX_MSG_ID then (CAN_sendMessage CAN_ECHO_MSG_ID data dlc s).1
  else s

/-- Test pattern of `CAN_testLoopback`. -/
def loopTestData : List Nat := [0x11, 0x22, 0x33, 0x44, 0x55, 0x66, 0x77, 0x88]

/-- `CAN_testLoopback()` (`can_communication.c`, lines 488-530), with no
environment action: it sends the test pattern, spins on the wait loop
(which, with nothing latching a frame, only decrements the local timeout
and changes no driver state), then either consumes a matching latched
frame (clearing the flag) or counts an error. -/
def CAN_testLoopback (s : DriverState) : DriverState :=
  let s1 := (CAN_sendMessage CAN_TX_MSG_ID (fun i => loopTestData.getD i 0) 8 s).1
  if s1.messageReceived ≠ 0 ∧ s1.lastRxMessage.dlc = 8 then
    if (List.range 8).all
        (fun i => s1.lastRxMessage.data.getD i 0 == loopTestData.getD i 0) then
      { s1 with messageReceived := 0 }
    else
      bumpErrorCount s1
  else
    bumpErrorCount s1

/-- Test pattern of `CAN_testTransmit`. -/
def txTestData : List Nat := [0xAA, 0xBB, 0xCC, 0xDD, 0xEE, 0xFF, 0x00, 0x11]

/-- `CAN_testTransmit()` (`can_communication.c`, lines 535-543): one send
of the fixed pattern. -/
def CAN_testTransmit (s : DriverState) : DriverState :=
  (CAN_sendMessage CAN_TX_MSG_ID (fun i => txTestData.getD i 0) 8 s).1

/-- `CAN_testReceive()` (`can_communication.c`, lines 548-567), with no
environment action latching frames during the poll loop: polls
`CAN_receiveMessage` with a budget of 1000000, then counts an error when
the received counter is still zero. -/
def CAN_testReceive (s : DriverState) : DriverState :=
  let lo := rxPollLoop (fun _ => none) 1000000 s zeroMsg
  if lo.2.1.canStats.messagesReceived > 0 then lo.2.1
  else bumpErrorCount lo.2.1

/-- Every operation of `can_communication.c` that reads or writes the
driver globals: the four driver-core operations and the in-file test
helpers, each with its caller-supplied arguments. -/
inductive CanOp where
  | send : Nat → (Nat → Nat) → Nat → CanOp
  | recv : CanOp
  | process : Nat → (Nat → Nat) → Nat → CanOp
  | stats : Bool → CanOp
  | errh : Nat → CanOp
  | testLoopback : CanOp
  | testTransmit : CanOp
  | testReceive : CanOp

/-- Effect of one operation on the driver globals, with no environment
action (nothing ever latches an inbound frame). -/
def CanOp.step : CanOp → DriverState → DriverState
  | CanOp.send msgId data dlc, s => (CAN_sendMessage msgId data dlc s).1
  | CanOp.recv, s => (CAN_receiveMessage s zeroMsg).2.1
  | CanOp.process msgId data dlc, s => CAN_processMessage msgId data dlc s
  | CanOp.stats isNull, s => (CAN_getStats isNull s zeroStats).2.1
  | CanOp.errh errorStatus, s => (CAN_errorHandler errorStatus s hwBoot).1
  | CanOp.testLoopback, s => CAN_testLoopback s
  | CanOp.testTransmit, s => CAN_testTransmit s
  | CanOp.testReceive, s => CAN_testReceive s

/-- A sequence of operations, applied left to right. -/
def runOps (ops : List CanOp) (s : DriverState) : DriverState :=
  ops.foldl (fun s op => op.step s) s

/-- No operation of `can_communication.c` ever sets the availability flag,
and with the flag clear none increments the received counter. -/
theorem CanOp.step_preserves_no_message (op : CanOp) (s : DriverState)
    (h : s.messageReceived = 0) :
    (op.step s).messageReceived = 0 ∧
    (op.step s).canStats.messagesReceived = s.canStats.messagesReceived := by
  cases op with
  | send msgId data dlc =>
    simp [CanOp.step, CAN_sendMessage, h]
  | recv =>
    simp [CanOp.step, CAN_receiveMessage, h]
  | process msgId data dlc =>
    by_cases hid : msgId = CAN_RX_MSG_ID <;>
      simp [CanOp.step, CAN_processMessage, CAN_sendMessage, hid, h]
  | stats isNull =>
    cases isNull <;> simp [CanOp.step, CAN_getStats, h]
  | errh errorStatus =>
    simp [CanOp.step, CAN_errorHandler, h]
  | testLoopback =>
    have hs1 : ((CAN_sendMessage CAN_TX_MSG_ID (fun i => loopTestData.getD i 0) 8 s).1).messageReceived = 0 := by
      simp [CAN_sendMessage, h]
    simp [CanOp.step, CAN_testLoopback, hs1, bumpErrorCount, CAN_sendMessage, h]
  | testTransmit =>
    simp [CanOp.step, CAN_testTransmit, CAN_sendMessage, h]
  | testReceive =>
    have hlo := rxPollLoop_none_flag0 1000000 s zeroMsg h
    by_cases hrc : 0 < s.canStats.messagesReceived <;>
      simp [CanOp.step, CAN_testReceive, hlo, bumpErrorCount, h, hrc]

/-- Claim C7: in the source as given no code path assigns a nonzero value
to `messageReceived` — it starts at 0 and, with no environment action
latching a frame, stays 0 under every sequence of driver and test
operations; consequently every `CAN_receiveMessage` call along any such
sequence returns 0 and the received counter remains 0 forever. -/
theorem C7_flag_never_set (ops : List CanOp) :
    (runOps ops initDriverState).messageReceived = 0 ∧
    (runOps ops initDriverState).canStats.messagesReceived = 0 ∧
    ∀ m : CAN_Message_t, (CAN_receiveMessage (runOps ops initDriverState) m).1 = 0 := by
  have haux : ∀ (l : List CanOp) (s : DriverState), s.messageReceived = 0 →
      (runOps l s).messageReceived = 0 ∧
      (runOps l s).canStats.messagesReceived = s.canStats.messagesReceived := by
    intro l
    induction l with
    | nil =>
      intro s hs
      exact ⟨hs, rfl⟩
    | cons op l ih =>
      intro s hs
      have hstep := CanOp.step_preserves_no_message op s hs
      have hrec := ih (op.step s) hstep.1
      refine ⟨?_, ?_⟩
      · simpa [runOps] using hrec.1
      · have : (runOps l (op.step s)).canStats.messagesReceived =
            s.canStats.messagesReceived := by
          rw [hrec.2, hstep.2]
        simpa [runOps] using this
  have h := haux ops initDriverState rfl
  refine ⟨h.1, by simpa [initDriverState, zeroStats] using h.2, ?_⟩
  intro m
  simp [CAN_receiveMessage, h.1]

/-- `Test_CAN_ReceiveMessage()` (`can_unit_tests.c`, lines 190-220): takes
a statistics snapshot, polls `CAN_receiveMessage` with a retry budget of
`TEST_TIMEOUT_LOOPS = 1000000`, takes a second snapshot, and passes
(returns `TEST_PASS = 1`) when the budget was not exhausted, the received
counter increased, and the received frame's length is in `1..8`; it fails
(returns `TEST_FAIL = 0`) otherwise.  `env` is the bus layer's latch
activity during the poll loop and `m` the arbitrary initial contents of
the stack-local `rxMsg`; the result also carries the driver globals and
the final `rxMsg`. -/
def Test_CAN_ReceiveMessage (env : Nat → Option CAN_Message_t) (s : DriverState)
    (m : CAN_Message_t) : Nat × DriverState × CAN_Message_t :=
  let statsBeforeRx := (CAN_getStats false s zeroStats).2.2
  let lo := rxPollLoop env 1000000 s m
  let statsAfter := (CAN_getStats false lo.2.1 zeroStats).2.2
  if 0 < lo.1 ∧ statsBeforeRx.messagesReceived < statsAfter.messagesReceived then
    if 0 < lo.2.2.1.dlc ∧ lo.2.2.1.dlc ≤ 8 then (1, lo.2.1, lo.2.2.1)
    else (0, lo.2.1, lo.2.2.1)
  else (0, lo.2.1, lo.2.2.1)

/-- Claim C8: the Receive test passes exactly when a message is consumed
before the retry budget runs out and the received frame's length is in
`1..8`; a received frame of length 0 therefore fails the test.  The
hypothesis keeps the prior received counter below the `uint32_t` wrap
bound, which holds at test 3 of any harness run (it is the first receive
of the fixed sequence, so the counter is 0 there). -/
theorem C8_receive_test_pass_iff (env : Nat → Option CAN_Message_t)
    (s : DriverState) (m : CAN_Message_t)
    (h : s.canStats.messagesReceived + 1 < U32) :
    (Test_CAN_ReceiveMessage env s m).1 = 1 ↔
      ((rxPollLoop env 1000000 s m).2.2.2 = true ∧
       0 < (rxPollLoop env 1000000 s m).2.2.1.dlc ∧
       (rxPollLoop env 1000000 s m).2.2.1.dlc ≤ 8) := by
  rcases rxPollLoop_spec 1000000 env s m with hno | hyes
  · have h1 : (Test_CAN_ReceiveMessage env s m).1 = 0 := by
      simp [Test_CAN_ReceiveMessage, CAN_getStats, hno.2.1]
    rw [h1]
    simp [hno.1]
  · have hrecv : (rxPollLoop env 1000000 s m).2.1.canStats.messagesReceived =
        s.canStats.messagesReceived + 1 := by
      rw [hyes.2.2.1, Nat.mod_eq_of_lt h]
    by_cases hdlc : 0 < (rxPollLoop env 1000000 s m).2.2.1.dlc ∧
        (rxPollLoop env 1000000 s m).2.2.1.dlc ≤ 8
    · have h1 : (Test_CAN_ReceiveMessage env s m).1 = 1 := by
        simp [Test_CAN_ReceiveMessage, CAN_getStats, hyes.2.1, hrecv, hdlc]
      rw [h1]
      simp [hyes.1, hdlc.1, hdlc.2]
    · have h1 : (Test_CAN_ReceiveMessage env s m).1 = 0 := by
        simp [Test_CAN_ReceiveMessage, CAN_getStats, hyes.2.1, hrecv, hdlc]
      rw [h1]
      constructor
      · intro hc
        exact absurd hc (by norm_num)
      · intro hc
        exact absurd ⟨hc.2.1, hc.2.2⟩ hdlc

/-- Environment used by the C8 witness: a frame of length 3 is latched
before the first poll. -/
def c8Env : Nat → Option CAN_Message_t :=
  fun _ => some ⟨CAN_RX_MSG_ID, 3, [1, 2, 3, 0, 0, 0, 0, 0], 0⟩

/-- Witness for C8: from the boot state, with a length-3 frame latched at
the first poll, the Receive test passes. -/
theorem C8_receive_test_pass_iff_w :
    (Test_CAN_ReceiveMessage c8Env initDriverState zeroMsg).1 = 1 :=
  (C8_receive_test_pass_iff c8Env initDriverState zeroMsg (by decide)).mpr
    (by decide)

/-- Test tally of `can_unit_tests.c` (`TestStats_t`; the `char testName[64]`
scratch buffer is never read and is omitted). -/
structure TestStats_t where
  testNumber : Nat
  totalTests : Nat
  passedTests : Nat
  failedTests : Nat
  lastTestResult : Nat
deriving DecidableEq

/-- Static initializer `{0, 0, 0, 0, 0, {0}}` of `testStats`. -/
def zeroTestStats : TestStats_t := ⟨0, 0, 0, 0, 0⟩

/-- `Test_printResult(result)` (`can_unit_tests.c`, lines 75-89): records
the result, bumps the pass or fail tally (`uint32_t`), and turns the
corresponding indicator on. -/
def Test_printResult (result : Nat) (t : TestStats_t) : TestStats_t × List CanEvent :=
  if result = 1 then
    ({ t with lastTestResult := result, passedTests := (t.passedTests + 1) % U32 },
     [CanEvent.gpioWrite DEVICE_GPIO_PIN_LED1 1])
  else
    ({ t with lastTestResult := result, failedTests := (t.failedTests + 1) % U32 },
     [CanEvent.gpioWrite DEVICE_GPIO_PIN_LED2 1])

/-- Modelled from the spec: a send under working loopback.  The driver's
`CAN_sendMessage` runs, and the bus layer routes the transmitted frame
(which goes out from the TX message object, hence with `CAN_TX_MSG_ID`,
carrying the clamped length and the zero-padded bytes) straight back to
the receive path, latching it into the Pending-Receive Slot.  The latch
itself is the interrupt-path code absent from the source files. -/
def loopbackSend (msgId : Nat) (data : Nat → Nat) (dlc : Nat) (s : DriverState) : DriverState :=
  latchFrame
    ⟨CAN_TX_MSG_ID, (CAN_sendMessage msgId data dlc s).2.1,
     (CAN_sendMessage msgId data dlc s).2.2, 0⟩
    (CAN_sendMessage msgId data dlc s).1

/-- `Test_CAN_BasicInitialization()` (`can_unit_tests.c`, lines 128-145):
statistics must be retrievable and both traffic counters must read 0. -/
def Test_CAN_BasicInitialization (s : DriverState) : Nat × DriverState :=
  if (CAN_getStats false s zeroStats).1 ≠ 1 then (0, s)
  else if (CAN_getStats false s zeroStats).2.2.messagesTransmitted ≠ 0 ∨
      (CAN_getStats false s zeroStats).2.2.messagesReceived ≠ 0 then (0, s)
  else (1, s)

/-- Test pattern of `Test_CAN_TransmitMessage` (`TEST_PATTERN_1..4` then
`0x11, 0x22, 0x33, 0x44`). -/
def txPattern : List Nat := [0xAA, 0x55, 0xFF, 0x00, 0x11, 0x22, 0x33, 0x44]

/-- `Test_CAN_TransmitMessage()` (`can_unit_tests.c`, lines 154-181):
snapshot, one send of the pattern, delay, snapshot; pass when the
transmitted counter strictly increased.  `sImpl` is the send operation as
seen through the bus model in force (plain driver send, or send under
loopback).  The source's declaration line for the first snapshot carries
a stray token (`statsBeforeWhen tx`); the variable actually used below it
is `statsBeforeTx`, which is what is embedded. -/
def Test_CAN_TransmitMessage
    (sImpl : Nat → (Nat → Nat) → Nat → DriverState → DriverState)
    (s : DriverState) : Nat × DriverState :=
  let statsBeforeTx := (CAN_getStats false s zeroStats).2.2
  let s1 := sImpl 0x123 (fun i => txPattern.getD i 0) 8 s
  let statsAfter := (CAN_getStats false s1 zeroStats).2.2
  if statsBeforeTx.messagesTransmitted < statsAfter.messagesTransmitted then (1, s1)
  else (0, s1)

/-- Test pattern of `Test_CAN_DataIntegrity`. -/
def integrityPattern : List Nat := [1, 2, 3, 4, 5, 6, 7, 8]

/-- `Test_CAN_DataIntegrity()` (`can_unit_tests.c`, lines 229-271): send
the known pattern, poll with the budget, then fail on timeout, on a
length other than 8, or on any byte mismatch; pass otherwise. -/
def Test_CAN_DataIntegrity
    (sImpl : Nat → (Nat → Nat) → Nat → DriverState → DriverState)
    (s : DriverState) : Nat × DriverState :=
  let s1 := sImpl 0x456 (fun i => integrityPattern.getD i 0) 8 s
  let lo := rxPollLoop (fun _ => none) 1000000 s1 zeroMsg
  if lo.1 = 0 then (0, lo.2.1)
  else if lo.2.2.1.dlc ≠ 8 then (0, lo.2.1)
  else if (List.range 8).all
      (fun i => lo.2.2.1.data.getD i 0 == integrityPattern.getD i 0) then (1, lo.2.1)
  else (0, lo.2.1)

/-- Per-message payload of `Test_CAN_SequentialMessages`: distinguishing
leading bytes from the loop index, fixed tail. -/
def seqMsgData (idx : Nat) : List Nat :=
  [idx &&& 0xFF, (idx >>> 8) &&& 0xFF, 0xAA, 0xBB, 0xCC, 0xDD, 0xEE, 0xFF]

/-- `Test_CAN_SequentialMessages()` (`can_unit_tests.c`, lines 280-317):
snapshot, five sends with distinct IDs `0x789 + idx`, snapshot; pass when
the transmitted counter grew by at least 5.  The source compares the
`uint32_t` difference `statsAfter - statsBefore`, embedded as the modular
difference (both counters are below `U32` in every reachable state). -/
def Test_CAN_SequentialMessages
    (sImpl : Nat → (Nat → Nat) → Nat → DriverState → DriverState)
    (s : DriverState) : Nat × DriverState :=
  let statsBefore := (CAN_getStats false s zeroStats).2.2
  let s5 := (List.range 5).foldl
    (fun st idx => sImpl (0x789 + idx) (fun j => (seqMsgData idx).getD j 0) 8 st) s
  let statsAfter := (CAN_getStats false s5 zeroStats).2.2
  if 5 ≤ (U32 + statsAfter.messagesTransmitted - statsBefore.messagesTransmitted) % U32 then
    (1, s5)
  else (0, s5)

/-- `Test_CAN_ErrorHandling()` (`can_unit_tests.c`, lines 324-340): pass
exactly when the cumulative error counter is still 0. -/
def Test_CAN_ErrorHandling (s : DriverState) : Nat × DriverState :=
  if (CAN_getStats false s zeroStats).2.2.errorCount = 0 then (1, s) else (0, s)

/-- `CAN_runUnitTests()` of `can_unit_tests.c` (lines 353-463), up to the
terminal reporting loop: LED setup, startup delay, the fixed ordered
six-test sequence with `Test_printResult` and an inter-test delay of
`TEST_DELAY_LOOPS = 100000` after each test (double after the last), and
the final indicator clear.  The result is the driver globals, the test
tally, and the event trace of this prefix; the terminal reporting loop is
modelled separately (`reportLoopIterTrace`).  `sImpl` is the send
operation under the bus model in force. -/
def CAN_runUnitTests
    (sImpl : Nat → (Nat → Nat) → Nat → DriverState → DriverState)
    (s0 : DriverState) : DriverState × TestStats_t × List CanEvent :=
  let r1 := Test_CAN_BasicInitialization s0
  let p1 := Test_printResult r1.1 zeroTestStats
  let r2 := Test_CAN_TransmitMessage sImpl r1.2
  let p2 := Test_printResult r2.1 p1.1
  let r3 := Test_CAN_ReceiveMessage (fun _ => none) r2.2 zeroMsg
  let p3 := Test_printResult r3.1 p2.1
  let r4 := Test_CAN_DataIntegrity sImpl r3.2.1
  let p4 := Test_printResult r4.1 p3.1
  let r5 := Test_CAN_SequentialMessages sImpl r4.2
  let p5 := Test_printResult r5.1 p4.1
  let r6 := Test_CAN_ErrorHandling r5.2
  let p6 := Test_printResult r6.1 p5.1
  (r6.2, p6.1,
   [CanEvent.gpioWrite DEVICE_GPIO_PIN_LED1 0, CanEvent.gpioWrite DEVICE_GPIO_PIN_LED2 0,
    CanEvent.delayLoops 500000] ++
   p1.2 ++ [CanEvent.delayLoops 100000] ++
   p2.2 ++ [CanEvent.delayLoops 100000] ++
   p3.2 ++ [CanEvent.delayLoops 100000] ++
   p4.2 ++ [CanEvent.delayLoops 100000] ++
   p5.2 ++ [CanEvent.delayLoops 100000] ++
   p6.2 ++ [CanEvent.delayLoops 200000] ++
   [CanEvent.gpioWrite DEVICE_GPIO_PIN_LED1 0, CanEvent.gpioWrite DEVICE_GPIO_PIN_LED2 0])

/-- One pulse of the pass indicator in the reporting loop: toggle on,
delay, toggle off, delay. -/
def passPulse : List CanEvent :=
  [CanEvent.gpioToggle DEVICE_GPIO_PIN_LED1, CanEvent.delayLoops 200000,
   CanEvent.gpioToggle DEVICE_GPIO_PIN_LED1, CanEvent.delayLoops 200000]

/-- One pulse of the fail indicator in the reporting loop. -/
def failPulse : List CanEvent :=
  [CanEvent.gpioToggle DEVICE_GPIO_PIN_LED2, CanEvent.delayLoops 200000,
   CanEvent.gpioToggle DEVICE_GPIO_PIN_LED2, CanEvent.delayLoops 200000]

/-- Event trace of one iteration of the `while(1)` reporting loop of
`CAN_runUnitTests` (`can_unit_tests.c`, lines 435-462): one pass pulse
per accumulated passed test, a pause, one fail pulse per accumulated
failed test, a longer pause. -/
def reportIterBody (t : TestStats_t) : List CanEvent :=
  List.flatten (List.replicate t.passedTests passPulse) ++
  [CanEvent.delayLoops 500000] ++
  List.flatten (List.replicate t.failedTests failPulse) ++
  [CanEvent.delayLoops 1000000]

/-- One step of the reporting loop on its state (the tally, which the body
never writes, and the local `counter`, which it increments): the next
state and the events emitted by this iteration. -/
def reportLoopStep (p : TestStats_t × Nat) : (TestStats_t × Nat) × List CanEvent :=
  ((p.1, p.2 + 1), reportIterBody p.1)

/-- Loop state at the start of iteration `n` of the reporting loop.  The
loop has no exit: it is defined for every `n`, which is the shallow
rendering of its non-termination. -/
def reportLoopState (t : TestStats_t) : Nat → TestStats_t × Nat
  | 0 => (t, 0)
  | n + 1 => (reportLoopStep (reportLoopState t n)).1

/-- Events emitted by iteration `n` of the reporting loop entered with
tally `t`. -/
def reportLoopIterTrace (t : TestStats_t) (n : Nat) : List CanEvent :=
  (reportLoopStep (reportLoopState t n)).2

/-- The reporting loop never changes the tally. -/
theorem reportLoopState_fst (t : TestStats_t) : ∀ n : Nat, (reportLoopState t n).1 = t := by
  intro n
  induction n with
  | zero => rfl
  | succ n ih =>
    simp only [reportLoopState, reportLoopStep]
    exact ih

/-- Claim C10: running the fixed six-test sequence from boot under working
loopback (zero injected faults) yields a fail tally of 0 and a pass tally
of 6, and every iteration `n` of the non-terminating terminal reporting
loop emits exactly six pass-indicator pulses, a pause, zero fail-indicator
pulses and a longer pause — the same trace forever. -/
theorem C10_all_pass_terminal_report :
    (CAN_runUnitTests loopbackSend initDriverState).2.1.failedTests = 0 ∧
    (CAN_runUnitTests loopbackSend initDriverState).2.1.passedTests = 6 ∧
    ∀ n : Nat,
      reportLoopIterTrace (CAN_runUnitTests loopbackSend initDriverState).2.1 n =
        List.flatten (List.replicate 6 passPulse) ++
          [CanEvent.delayLoops 500000] ++ [CanEvent.delayLoops 1000000] := by
  refine ⟨by decide, by decide, ?_⟩
  intro n
  have hstate := reportLoopState_fst (CAN_runUnitTests loopbackSend initDriverState).2.1 n
  have htrace : reportLoopIterTrace (CAN_runUnitTests loopbackSend initDriverState).2.1 n =
      reportIterBody (reportLoopState (CAN_runUnitTests loopbackSend initDriverState).2.1 n).1 :=
    rfl
  rw [htrace, hstate]
  decide
